import Mathlib

/-
Verification development for the pixel-art text renderer (pixel_app.py).

The renderer `text_to_true_pixel_art` is embedded shallowly.  The external
font-rendering facility (PIL: ImageFont.truetype, ImageDraw.textbbox,
ImageDraw.textlength, FreeTypeFont.getmetrics, ImageDraw.text) is modelled as
an abstract `Rasterizer` record of fallible operations; Python exceptions are
modelled with `Except PyExn`, and the Streamlit message calls (st.error,
st.warning) are modelled as a list of emitted `Msg` values returned alongside
the optional image.  The control flow of the embedding mirrors the source
line by line: the `try ... except IOError` around font loading, the
`try ... except AttributeError` around textbbox with the nested
textlength/getmetrics fallback, the degenerate-extent early return, the
background-filled buffer, the draw call at offset (-bbox0, -bbox1) and the
final alpha-threshold quantization over getdata/putdata.
-/

namespace PixelArt

/-- An RGBA pixel: four 8-bit channels as used by PIL mode RGBA. -/
structure RGBA where
  r : Nat
  g : Nat
  b : Nat
  a : Nat
deriving DecidableEq, Repr

/-- A raster image: width, height and the flat row-major pixel list, the shape
PIL exposes through Image.new / getdata / putdata. -/
structure Image where
  width : Nat
  height : Nat
  data : List RGBA
deriving DecidableEq, Repr

/-- The Python exceptions relevant to the source: IOError (caught around font
loading), AttributeError (caught around the metrics calls) and any other
exception (never caught by the source). -/
inductive PyExn where
  | ioError
  | attributeError
  | otherError (msg : String)
deriving DecidableEq, Repr

/-- The user-visible messages the source emits through st.error / st.warning,
identified by which call site produces them. -/
inductive Msg where
  | fontLoadError
  | metricsWarning
  | metricsError
  | degenerateWarning
deriving DecidableEq, Repr

/-- The external font-rendering facility (PIL), abstracted: each operation of
the source that crosses into PIL, as a fallible function.  `truetype` is font
loading for a path and size; `textbbox`, `textlength` and `getmetrics` are the
measurement calls; `drawText` renders text with a fill color onto a base
image, taking the draw origin as its first two arguments. -/
structure Rasterizer where
  truetype : String → Nat → Except PyExn Unit
  textbbox : String → Nat → String → Except PyExn (Int × Int × Int × Int)
  textlength : String → Nat → String → Except PyExn Int
  getmetrics : String → Nat → Except PyExn (Int × Int)
  drawText : Int → Int → String → String → Nat → RGBA → Image → Except PyExn Image

/-- The text-measurement phase of the source (the dummy-image textbbox call
with its AttributeError fallback to textlength plus getmetrics): returns the
emitted warnings and either a bbox or none (the source returns None after
st.error when even the fallback is unavailable); uncaught exceptions
propagate. -/
def measureBBox (R : Rasterizer) (font_path : String) (font_size : Nat)
    (text : String) : Except PyExn (List Msg × Option (Int × Int × Int × Int)) :=
  match R.textbbox font_path font_size text with
  | .ok bbox => .ok ([], some bbox)
  | .error .attributeError =>
    match R.textlength font_path font_size text with
    | .ok len =>
      match R.getmetrics font_path font_size with
      | .ok (ascent, descent) =>
        .ok ([.metricsWarning], some (0, 0, len, ascent + descent))
      | .error .attributeError => .ok ([.metricsWarning, .metricsError], none)
      | .error e => .error e
    | .error .attributeError => .ok ([.metricsWarning, .metricsError], none)
    | .error e => .error e
  | .error e => .error e

/-- The quantization applied to each pixel of getdata: alpha above zero maps
to text_color, otherwise bg_color. -/
def quantizePixel (text_color bg_color : RGBA) (p : RGBA) : RGBA :=
  if 0 < p.a then text_color else bg_color

/-- Image.new of a given size filled with one color (flat pixel list). -/
def baseImage (w h : Nat) (c : RGBA) : Image :=
  ⟨w, h, List.replicate (w * h) c⟩

/-- The core function text_to_true_pixel_art of pixel_app.py.  The result is
either a propagated uncaught exception, or the returned value (an optional
image, None on the handled error paths) together with the messages emitted
through st.error and st.warning. -/
def text_to_true_pixel_art (R : Rasterizer) (text font_path : String)
    (font_size : Nat) (text_color bg_color : RGBA) :
    Except PyExn (Option Image × List Msg) :=
  match R.truetype font_path font_size with
  | .error .ioError => .ok (none, [.fontLoadError])
  | .error e => .error e
  | .ok _ =>
    match measureBBox R font_path font_size text with
    | .error e => .error e
    | .ok (msgs, none) => .ok (none, msgs)
    | .ok (msgs, some (b0, b1, b2, b3)) =>
      if b2 - b0 ≤ 0 ∨ b3 - b1 ≤ 0 then
        .ok (some (baseImage 1 1 bg_color), msgs ++ [.degenerateWarning])
      else
        match R.drawText (-b0) (-b1) text font_path font_size text_color
            (baseImage (b2 - b0).toNat (b3 - b1).toNat bg_color) with
        | .error e => .error e
        | .ok img2 =>
          .ok (some ⟨img2.width, img2.height,
            img2.data.map (quantizePixel text_color bg_color)⟩, msgs)

/-- Python str.rstrip applied to the underscore character, on char lists. -/
def rstripUnderscore (l : List Char) : List Char :=
  (l.reverse.dropWhile (fun c => c = '_')).reverse

/-- Model of Python str.isalnum on the characters exercised here (letters and
digits). -/
def pyIsAlnum (c : Char) : Bool :=
  c.isAlpha || c.isDigit

/-- The fallback download name of the source. -/
def fallbackName : String := "pixel_text"

/-- The download-filename derivation of the source: keep the first 20
characters, replace each non-alphanumeric one by an underscore, strip
trailing underscores, and fall back to the fixed default when empty. -/
def safe_filename (text_input : String) : String :=
  let s := String.mk (rstripUnderscore ((text_input.toList.take 20).map
    (fun c => if pyIsAlnum c then c else '_')))
  if s = "" then fallbackName else s

/-- The filename rule in the order the spec words it: replace every
non-alphanumeric character of the whole input with an underscore, keep only
the first 20 characters, strip trailing underscores, fall back when empty. -/
def safe_filename_spec (text_input : String) : String :=
  let replaced := text_input.toList.map (fun c => if pyIsAlnum c then c else '_')
  let s := String.mk (rstripUnderscore (replaced.take 20))
  if s = "" then fallbackName else s

/-- DEFAULT_TEXT_COLOR of the source: black, fully opaque. -/
def tcDefault : RGBA := ⟨0, 0, 0, 255⟩

/-- DEFAULT_BG_COLOR of the source: transparent background. -/
def bgDefault : RGBA := ⟨0, 0, 0, 0⟩

/-- The color inversion the spec describes for swapped color pairs. -/
def swapColor (tc bg : RGBA) (p : RGBA) : RGBA :=
  if p = tc then bg else if p = bg then tc else p

/-- Run lemma: on the path where the font loads, measurement yields a bbox of
positive extent and the draw call succeeds, the function returns the drawn
image with every pixel quantized, together with the measurement messages. -/
theorem render_nondegenerate (R : Rasterizer) (t path : String) (size : Nat)
    (tc bg : RGBA) (b0 b1 b2 b3 : Int) (msgs : List Msg) (img2 : Image)
    (ht : R.truetype path size = .ok ())
    (hm : measureBBox R path size t = .ok (msgs, some (b0, b1, b2, b3)))
    (hw : 0 < b2 - b0) (hh : 0 < b3 - b1)
    (hd : R.drawText (-b0) (-b1) t path size tc
        (baseImage (b2 - b0).toNat (b3 - b1).toNat bg) = .ok img2) :
    text_to_true_pixel_art R t path size tc bg
      = .ok (some ⟨img2.width, img2.height,
          img2.data.map (quantizePixel tc bg)⟩, msgs) := by
  unfold text_to_true_pixel_art
  rw [ht, hm]
  simp only []
  rw [if_neg (by omega : ¬ (b2 - b0 ≤ 0 ∨ b3 - b1 ≤ 0))]
  rw [hd]

/-- Run lemma: on the path where the font loads and measurement yields a bbox
of non-positive width or height, the function returns the 1 by 1 background
image plus a degenerate-input warning. -/
theorem render_degenerate (R : Rasterizer) (t path : String) (size : Nat)
    (tc bg : RGBA) (b0 b1 b2 b3 : Int) (msgs : List Msg)
    (ht : R.truetype path size = .ok ())
    (hm : measureBBox R path size t = .ok (msgs, some (b0, b1, b2, b3)))
    (hdeg : b2 - b0 ≤ 0 ∨ b3 - b1 ≤ 0) :
    text_to_true_pixel_art R t path size tc bg
      = .ok (some ⟨1, 1, [bg]⟩, msgs ++ [.degenerateWarning]) := by
  unfold text_to_true_pixel_art
  rw [ht, hm]
  simp only []
  rw [if_pos hdeg]
  rfl

/-- The measurement phase never emits the font-load error message. -/
theorem measureBBox_no_fontload (R : Rasterizer) (path : String) (size : Nat)
    (t : String) (msgs : List Msg) (ob : Option (Int × Int × Int × Int))
    (h : measureBBox R path size t = .ok (msgs, ob)) :
    Msg.fontLoadError ∉ msgs := by
  unfold measureBBox at h
  split at h
  · obtain ⟨h1, h2⟩ := Prod.mk.injEq .. ▸ Except.ok.inj h
    subst h1; simp
  · split at h
    · split at h
      · obtain ⟨h1, h2⟩ := Prod.mk.injEq .. ▸ Except.ok.inj h
        subst h1; simp
      · obtain ⟨h1, h2⟩ := Prod.mk.injEq .. ▸ Except.ok.inj h
        subst h1; simp
      · exact absurd h (by simp)
    · obtain ⟨h1, h2⟩ := Prod.mk.injEq .. ▸ Except.ok.inj h
      subst h1; simp
    · exact absurd h (by simp)
  · exact absurd h (by simp)

/-- A draw operation used by the concrete test facility: overwrite the first
pixel of the buffer with the fill color, leave the rest. -/
def drawHead (fill : RGBA) : List RGBA → List RGBA
  | [] => []
  | _ :: rest => fill :: rest

/-- Sample text used to evaluate the embeddings on concrete inputs. -/
def sampleText : String := "A"

/-- Sample font path used to evaluate the embeddings on concrete inputs. -/
def samplePath : String := "font.ttf"

/-- A concrete well-behaved facility: the font loads, the bbox of any text is
(0, 0, 2, 1), and drawing inks the first pixel of the buffer. -/
def Rgood : Rasterizer where
  truetype := fun _ _ => .ok ()
  textbbox := fun _ _ _ => .ok (0, 0, 2, 1)
  textlength := fun _ _ _ => .ok 2
  getmetrics := fun _ _ => .ok (1, 0)
  drawText := fun _ _ _ _ _ fill img => .ok ⟨img.width, img.height, drawHead fill img.data⟩

/-- C1: whenever the rasterization path is reached (positive measured width
and height) and the draw call succeeds, the returned buffer is exactly the
per-pixel quantization of the drawn buffer: a pixel of post-draw alpha above
zero becomes the textColor quadruple, a pixel of alpha zero becomes the
bgColor quadruple, and hence every output pixel equals textColor or
bgColor. -/
theorem quantization_binary (R : Rasterizer) (t path : String) (size : Nat)
    (tc bg : RGBA) (b0 b1 b2 b3 : Int) (msgs : List Msg) (img2 : Image)
    (ht : R.truetype path size = .ok ())
    (hm : measureBBox R path size t = .ok (msgs, some (b0, b1, b2, b3)))
    (hw : 0 < b2 - b0) (hh : 0 < b3 - b1)
    (hd : R.drawText (-b0) (-b1) t path size tc
        (baseImage (b2 - b0).toNat (b3 - b1).toNat bg) = .ok img2) :
    text_to_true_pixel_art R t path size tc bg
      = .ok (some ⟨img2.width, img2.height,
          img2.data.map (quantizePixel tc bg)⟩, msgs)
    ∧ (∀ p ∈ img2.data,
        (0 < p.a → quantizePixel tc bg p = tc)
        ∧ (p.a = 0 → quantizePixel tc bg p = bg))
    ∧ (∀ q ∈ img2.data.map (quantizePixel tc bg), q = tc ∨ q = bg) := by
  refine ⟨render_nondegenerate R t path size tc bg b0 b1 b2 b3 msgs img2
      ht hm hw hh hd, ?_, ?_⟩
  · intro p _
    constructor
    · intro hp; simp [quantizePixel, hp]
    · intro hp; simp [quantizePixel, hp]
  · intro q hq
    obtain ⟨p, _, hpq⟩ := List.mem_map.mp hq
    by_cases hp : 0 < p.a
    · left; rw [← hpq]; simp [quantizePixel, hp]
    · right; rw [← hpq]; simp [quantizePixel, hp]

/-- Witness for C1 at a concrete facility: two-pixel buffer, first pixel
inked, quantized to exactly the default text and background colors. -/
theorem quantization_binary_witness :
    text_to_true_pixel_art Rgood sampleText samplePath 30 tcDefault bgDefault
      = .ok (some ⟨2, 1, [tcDefault, bgDefault]⟩, []) :=
  (quantization_binary Rgood sampleText samplePath 30 tcDefault bgDefault
    0 0 2 1 [] ⟨2, 1, [tcDefault, bgDefault]⟩
    rfl rfl (by decide) (by decide) rfl).1

/-- A concrete facility whose measured bbox is empty (as for whitespace-only
text): same as Rgood except textbbox reports a zero-extent box. -/
def Rdegen : Rasterizer where
  truetype := fun _ _ => .ok ()
  textbbox := fun _ _ _ => .ok (0, 0, 0, 0)
  textlength := fun _ _ _ => .ok 0
  getmetrics := fun _ _ => .ok (1, 0)
  drawText := fun _ _ _ _ _ fill img => .ok ⟨img.width, img.height, drawHead fill img.data⟩

/-- C2: when the font loads and the measured extent is degenerate (width or
height at most zero), the function skips rasterization and returns a 1 by 1
buffer filled with bgColor as a normal outcome, and no FontLoadError message
is signalled. -/
theorem degenerate_input_one_by_one (R : Rasterizer) (t path : String)
    (size : Nat) (tc bg : RGBA) (b0 b1 b2 b3 : Int) (msgs : List Msg)
    (ht : R.truetype path size = .ok ())
    (hm : measureBBox R path size t = .ok (msgs, some (b0, b1, b2, b3)))
    (hdeg : b2 - b0 ≤ 0 ∨ b3 - b1 ≤ 0) :
    text_to_true_pixel_art R t path size tc bg
      = .ok (some ⟨1, 1, [bg]⟩, msgs ++ [.degenerateWarning])
    ∧ Msg.fontLoadError ∉ msgs ++ [Msg.degenerateWarning] := by
  refine ⟨render_degenerate R t path size tc bg b0 b1 b2 b3 msgs ht hm hdeg, ?_⟩
  intro hmem
  rcases List.mem_append.mp hmem with h | h
  · exact measureBBox_no_fontload R path size t msgs _ hm h
  · simp at h

/-- Witness for C2 at a concrete facility reporting an empty bbox: the result
is the 1 by 1 background buffer and the messages carry no FontLoadError. -/
theorem degenerate_input_one_by_one_witness :
    text_to_true_pixel_art Rdegen sampleText samplePath 30 tcDefault bgDefault
      = .ok (some ⟨1, 1, [bgDefault]⟩, [Msg.degenerateWarning])
    ∧ Msg.fontLoadError ∉ [Msg.degenerateWarning] :=
  degenerate_input_one_by_one Rdegen sampleText samplePath 30 tcDefault
    bgDefault 0 0 0 0 [] rfl rfl (by decide)

/-- C3: for a non-degenerate measured bbox (b0, b1, b2, b3), the returned
buffer has width exactly b2 - b0 and height exactly b3 - b1, where the glyphs
were drawn at origin (-b0, -b1) onto the background-filled buffer of that
size, so the measured ink box lands at the buffer origin. -/
theorem tight_bbox_dims (R : Rasterizer) (t path : String) (size : Nat)
    (tc bg : RGBA) (b0 b1 b2 b3 : Int) (msgs : List Msg) (img2 : Image)
    (ht : R.truetype path size = .ok ())
    (hm : measureBBox R path size t = .ok (msgs, some (b0, b1, b2, b3)))
    (hw : 0 < b2 - b0) (hh : 0 < b3 - b1)
    (hpd : ∀ ox oy f img img', R.drawText ox oy t path size f img = .ok img' →
        img'.width = img.width ∧ img'.height = img.height)
    (hd : R.drawText (-b0) (-b1) t path size tc
        (baseImage (b2 - b0).toNat (b3 - b1).toNat bg) = .ok img2) :
    text_to_true_pixel_art R t path size tc bg
      = .ok (some ⟨(b2 - b0).toNat, (b3 - b1).toNat,
          img2.data.map (quantizePixel tc bg)⟩, msgs) := by
  have h := render_nondegenerate R t path size tc bg b0 b1 b2 b3 msgs img2
    ht hm hw hh hd
  obtain ⟨hw2, hh2⟩ := hpd _ _ _ _ _ hd
  rw [h, hw2, hh2]
  rfl

/-- Witness for C3: at the concrete facility the measured box (0, 0, 2, 1)
yields a buffer of width 2 and height 1. -/
theorem tight_bbox_dims_witness :
    text_to_true_pixel_art Rgood sampleText samplePath 31 tcDefault bgDefault
      = .ok (some ⟨2, 1, [tcDefault, bgDefault]⟩, []) := by
  have h := tight_bbox_dims Rgood sampleText samplePath 31 tcDefault bgDefault
    0 0 2 1 [] ⟨2, 1, [tcDefault, bgDefault]⟩ rfl rfl (by decide) (by decide)
    (by intro ox oy f img img' hok
        have := Except.ok.inj hok
        rw [← this]
        exact ⟨rfl, rfl⟩) rfl
  exact h

/-- C4: the renderer is deterministic and referentially transparent — its
result is a function of the call arguments and of the facility's functional
behavior alone, so two calls against facilities with identical operations and
identical arguments return identical results. -/
theorem render_deterministic (R1 R2 : Rasterizer) (t path : String)
    (size : Nat) (tc bg : RGBA)
    (h1 : R1.truetype = R2.truetype) (h2 : R1.textbbox = R2.textbbox)
    (h3 : R1.textlength = R2.textlength) (h4 : R1.getmetrics = R2.getmetrics)
    (h5 : R1.drawText = R2.drawText) :
    text_to_true_pixel_art R1 t path size tc bg
      = text_to_true_pixel_art R2 t path size tc bg := by
  have : R1 = R2 := by
    cases R1; cases R2
    simp only [Rasterizer.mk.injEq]
    exact ⟨h1, h2, h3, h4, h5⟩
  rw [this]

/-- Witness for C4: applied at the concrete facility against itself. -/
theorem render_deterministic_witness :
    text_to_true_pixel_art Rgood sampleText samplePath 30 tcDefault bgDefault
      = text_to_true_pixel_art Rgood sampleText samplePath 30 tcDefault
          bgDefault :=
  render_deterministic Rgood Rgood sampleText samplePath 30 tcDefault
    bgDefault rfl rfl rfl rfl rfl

/-- Pixel-level inversion step: if one pixel's alpha positivity agrees with
another's, then quantizing with the swapped color pair yields the
swap-inverse of quantizing with the original pair. -/
theorem quant_swap_pixel (tc bg p q : RGBA)
    (h : decide (0 < q.a) = decide (0 < p.a)) :
    quantizePixel bg tc q = swapColor tc bg (quantizePixel tc bg p) := by
  by_cases hp : 0 < p.a
  · have hq : 0 < q.a := by simpa [hp] using h
    simp [quantizePixel, swapColor, hp, hq]
  · have hq : ¬ 0 < q.a := by simpa [hp] using h
    by_cases htb : bg = tc <;> simp [quantizePixel, swapColor, hp, hq, htb]

/-- List-level inversion: equal alpha-positivity patterns give swapped
quantizations that are pointwise color inverses. -/
theorem quant_map_swap (tc bg : RGBA) (lA : List RGBA) :
    ∀ lB : List RGBA,
      lB.map (fun p => decide (0 < p.a)) = lA.map (fun p => decide (0 < p.a)) →
      lB.map (quantizePixel bg tc)
        = (lA.map (quantizePixel tc bg)).map (swapColor tc bg) := by
  induction lA with
  | nil =>
    intro lB h
    simp only [List.map_nil, List.map_eq_nil_iff] at h
    simp [h]
  | cons a lA ih =>
    intro lB h
    cases lB with
    | nil => simp at h
    | cons b lB =>
      simp only [List.map_cons, List.cons.injEq] at h
      simp only [List.map_cons, List.cons.injEq]
      exact ⟨quant_swap_pixel tc bg a b h.1, ih lB h.2⟩

/-- C5: for a fixed non-degenerate input, if the facility's post-draw alpha
coverage pattern is the same in the original and the color-swapped run (the
parenthetical premise of the claim), then calling with textColor and bgColor
swapped yields the exact pixel-wise color inverse of the original buffer:
same width and height, every former textColor pixel now bgColor and vice
versa. -/
theorem color_swap_inverse (R : Rasterizer) (t path : String) (size : Nat)
    (tc bg : RGBA) (b0 b1 b2 b3 : Int) (msgs : List Msg) (imgA imgB : Image)
    (ht : R.truetype path size = .ok ())
    (hm : measureBBox R path size t = .ok (msgs, some (b0, b1, b2, b3)))
    (hw : 0 < b2 - b0) (hh : 0 < b3 - b1)
    (hpd : ∀ ox oy f img img', R.drawText ox oy t path size f img = .ok img' →
        img'.width = img.width ∧ img'.height = img.height)
    (hdA : R.drawText (-b0) (-b1) t path size tc
        (baseImage (b2 - b0).toNat (b3 - b1).toNat bg) = .ok imgA)
    (hdB : R.drawText (-b0) (-b1) t path size bg
        (baseImage (b2 - b0).toNat (b3 - b1).toNat tc) = .ok imgB)
    (hcov : imgB.data.map (fun p => decide (0 < p.a))
        = imgA.data.map (fun p => decide (0 < p.a))) :
    text_to_true_pixel_art R t path size tc bg
      = .ok (some ⟨imgA.width, imgA.height,
          imgA.data.map (quantizePixel tc bg)⟩, msgs)
    ∧ text_to_true_pixel_art R t path size bg tc
      = .ok (some ⟨imgA.width, imgA.height,
          (imgA.data.map (quantizePixel tc bg)).map (swapColor tc bg)⟩,
          msgs) := by
  refine ⟨render_nondegenerate R t path size tc bg b0 b1 b2 b3 msgs imgA
      ht hm hw hh hdA, ?_⟩
  have hB := render_nondegenerate R t path size bg tc b0 b1 b2 b3 msgs imgB
    ht hm hw hh hdB
  rw [hB]
  obtain ⟨hwA, hhA⟩ := hpd _ _ _ _ _ hdA
  obtain ⟨hwB, hhB⟩ := hpd _ _ _ _ _ hdB
  simp only [baseImage] at hwA hhA hwB hhB
  rw [hwB, hhB, ← hwA, ← hhA, quant_map_swap tc bg imgA.data imgB.data hcov]

/-- A facility whose draw writes a color-independent alpha pattern: the first
pixel gets the fill color at full alpha, all remaining pixels get alpha
zero. -/
def maskPixels (fill : RGBA) : List RGBA → List RGBA
  | [] => []
  | _ :: rest => ⟨fill.r, fill.g, fill.b, 255⟩ ::
      rest.map (fun q => ⟨q.r, q.g, q.b, 0⟩)

/-- Concrete facility with the color-independent coverage draw. -/
def RcovMask : Rasterizer where
  truetype := fun _ _ => .ok ()
  textbbox := fun _ _ _ => .ok (0, 0, 2, 1)
  textlength := fun _ _ _ => .ok 2
  getmetrics := fun _ _ => .ok (1, 0)
  drawText := fun _ _ _ _ _ fill img =>
    .ok ⟨img.width, img.height, maskPixels fill img.data⟩

/-- Witness for C5: at the coverage-mask facility, swapping the default
colors exactly inverts the two-pixel output buffer. -/
theorem color_swap_inverse_witness :
    text_to_true_pixel_art RcovMask sampleText samplePath 30 tcDefault
        bgDefault
      = .ok (some ⟨2, 1, [tcDefault, bgDefault]⟩, [])
    ∧ text_to_true_pixel_art RcovMask sampleText samplePath 30 bgDefault
        tcDefault
      = .ok (some ⟨2, 1, [bgDefault, tcDefault]⟩, []) := by
  have h := color_swap_inverse RcovMask sampleText samplePath 30 tcDefault
    bgDefault 0 0 2 1 []
    ⟨2, 1, [⟨0, 0, 0, 255⟩, ⟨0, 0, 0, 0⟩]⟩
    ⟨2, 1, [⟨0, 0, 0, 255⟩, ⟨0, 0, 0, 0⟩]⟩
    rfl rfl (by decide) (by decide)
    (by intro ox oy f img img' hok
        have := Except.ok.inj hok
        rw [← this]
        exact ⟨rfl, rfl⟩) rfl rfl rfl
  exact h

/-- Discriminator for the result type: true exactly when the call returned
normally (with a buffer or a handled error), false when an exception
propagated uncaught. -/
def isOkResult (r : Except PyExn (Option Image × List Msg)) : Bool :=
  match r with
  | .ok _ => true
  | .error _ => false

/-- Message text of the failing draw of the exception-raising facility. -/
def drawFailText : String := "draw failed"

/-- A facility whose draw call raises an exception the source does not
handle. -/
def Rboom : Rasterizer where
  truetype := fun _ _ => .ok ()
  textbbox := fun _ _ _ => .ok (0, 0, 2, 1)
  textlength := fun _ _ _ => .ok 2
  getmetrics := fun _ _ => .ok (1, 0)
  drawText := fun _ _ _ _ _ _ _ => .error (.otherError drawFailText)

/-- C6 counterexample: the source has no handler around the draw call, so a
rasterization failure there propagates as an uncaught exception instead of
being returned as an error result — the call ends in a raised exception, not
a discriminated result. -/
theorem uncaught_draw_exception_cex :
    text_to_true_pixel_art Rboom sampleText samplePath 30 tcDefault bgDefault
      = .error (.otherError drawFailText) := rfl

/-- Tame-facility lemma: when the measurement calls fail only with
AttributeError, the measurement phase itself never propagates. -/
theorem measureBBox_tame (R : Rasterizer) (path : String) (size : Nat)
    (t : String)
    (h2 : ∀ e, R.textbbox path size t = .error e → e = .attributeError)
    (h3 : ∀ e, R.textlength path size t = .error e → e = .attributeError)
    (h4 : ∀ e, R.getmetrics path size = .error e → e = .attributeError) :
    ∃ r, measureBBox R path size t = .ok r := by
  unfold measureBBox
  cases hb : R.textbbox path size t with
  | ok bbox => exact ⟨_, rfl⟩
  | error e =>
    have he := h2 e hb
    subst he
    cases hl : R.textlength path size t with
    | ok len =>
      cases hg : R.getmetrics path size with
      | ok m =>
        obtain ⟨ma, mb⟩ := m
        exact ⟨_, rfl⟩
      | error e2 =>
        have := h4 e2 hg
        subst this
        exact ⟨_, rfl⟩
    | error e2 =>
      have := h3 e2 hl
      subst this
      exact ⟨_, rfl⟩

/-- C6 amended: the function never propagates an exception provided the
facility fails only in the ways the source handles — IOError from font
loading and AttributeError from the measurement calls — and the draw call
does not raise; a draw-call exception (see the counterexample) propagates
uncaught. -/
theorem no_uncaught_with_tame_facility (R : Rasterizer) (t path : String)
    (size : Nat) (tc bg : RGBA)
    (h1 : ∀ e, R.truetype path size = .error e → e = .ioError)
    (h2 : ∀ e, R.textbbox path size t = .error e → e = .attributeError)
    (h3 : ∀ e, R.textlength path size t = .error e → e = .attributeError)
    (h4 : ∀ e, R.getmetrics path size = .error e → e = .attributeError)
    (h5 : ∀ ox oy f img e, R.drawText ox oy t path size f img ≠ .error e) :
    isOkResult (text_to_true_pixel_art R t path size tc bg) = true := by
  unfold text_to_true_pixel_art
  cases htt : R.truetype path size with
  | error e =>
    have := h1 e htt
    subst this
    rfl
  | ok u =>
    obtain ⟨⟨msgs, ob⟩, hmb⟩ := measureBBox_tame R path size t h2 h3 h4
    rw [hmb]
    cases ob with
    | none => rfl
    | some bbox =>
      obtain ⟨c0, c1, c2, c3⟩ := bbox
      simp only []
      by_cases hdeg : c2 - c0 ≤ 0 ∨ c3 - c1 ≤ 0
      · rw [if_pos hdeg]
        rfl
      · rw [if_neg hdeg]
        cases hd : R.drawText (-c0) (-c1) t path size tc
            (baseImage (c2 - c0).toNat (c3 - c1).toNat bg) with
        | error e => exact absurd hd (h5 _ _ _ _ e)
        | ok img2 => rfl

/-- Witness for the amended C6 at the well-behaved concrete facility. -/
theorem no_uncaught_with_tame_facility_witness :
    isOkResult (text_to_true_pixel_art Rgood sampleText samplePath 30
      tcDefault bgDefault) = true :=
  no_uncaught_with_tame_facility Rgood sampleText samplePath 30 tcDefault
    bgDefault
    (fun e h => absurd h (by simp [Rgood]))
    (fun e h => absurd h (by simp [Rgood]))
    (fun e h => absurd h (by simp [Rgood]))
    (fun e h => absurd h (by simp [Rgood]))
    (fun ox oy f img e h => absurd h (by simp [Rgood]))

/-- A facility on which neither textbbox nor the textlength fallback is
available (both raise AttributeError). -/
def Rnometrics : Rasterizer where
  truetype := fun _ _ => .ok ()
  textbbox := fun _ _ _ => .error .attributeError
  textlength := fun _ _ _ => .error .attributeError
  getmetrics := fun _ _ => .ok (1, 0)
  drawText := fun _ _ _ _ _ fill img =>
    .ok ⟨img.width, img.height, drawHead fill img.data⟩

/-- C7 counterexample: with the ink-bbox facility unavailable and the
advance-width fallback also unavailable, the call returns no buffer at all
(the source emits an error message after the fallback warning and returns
None), so the metrics-degraded path is not always non-fatal. -/
theorem metrics_double_failure_cex :
    text_to_true_pixel_art Rnometrics sampleText samplePath 30 tcDefault
        bgDefault
      = .ok (none, [Msg.metricsWarning, Msg.metricsError]) := rfl

/-- C7 amended: when textbbox is unavailable (AttributeError) but textlength
and getmetrics are available, the function surfaces the non-fatal warning and
continues with the approximate box built from the advance width and
ascent plus descent, still producing an image when that box is non-degenerate
and the draw succeeds. -/
theorem metrics_fallback_produces_image (R : Rasterizer) (t path : String)
    (size : Nat) (tc bg : RGBA) (len ascent descent : Int) (img2 : Image)
    (ht : R.truetype path size = .ok ())
    (hb : R.textbbox path size t = .error .attributeError)
    (hl : R.textlength path size t = .ok len)
    (hg : R.getmetrics path size = .ok (ascent, descent))
    (hlen : 0 < len) (hasc : 0 < ascent + descent)
    (hd : R.drawText 0 0 t path size tc
        (baseImage len.toNat (ascent + descent).toNat bg) = .ok img2) :
    text_to_true_pixel_art R t path size tc bg
      = .ok (some ⟨img2.width, img2.height,
          img2.data.map (quantizePixel tc bg)⟩, [Msg.metricsWarning]) := by
  have hm : measureBBox R path size t
      = .ok ([Msg.metricsWarning], some (0, 0, len, ascent + descent)) := by
    unfold measureBBox
    rw [hb, hl, hg]
  exact render_nondegenerate R t path size tc bg 0 0 len (ascent + descent)
    [Msg.metricsWarning] img2 ht hm (by omega) (by omega) (by simpa using hd)

/-- A facility on which textbbox is unavailable but the textlength and
getmetrics fallback works. -/
def Rfallback : Rasterizer where
  truetype := fun _ _ => .ok ()
  textbbox := fun _ _ _ => .error .attributeError
  textlength := fun _ _ _ => .ok 2
  getmetrics := fun _ _ => .ok (1, 0)
  drawText := fun _ _ _ _ _ fill img =>
    .ok ⟨img.width, img.height, drawHead fill img.data⟩

/-- Witness for the amended C7: the fallback facility still yields an image
of the approximate 2 by 1 box, with the precision warning. -/
theorem metrics_fallback_produces_image_witness :
    text_to_true_pixel_art Rfallback sampleText samplePath 30 tcDefault
        bgDefault
      = .ok (some ⟨2, 1, [tcDefault, bgDefault]⟩, [Msg.metricsWarning]) :=
  metrics_fallback_produces_image Rfallback sampleText samplePath 30 tcDefault
    bgDefault 2 1 0 ⟨2, 1, [tcDefault, bgDefault]⟩
    rfl rfl rfl rfl (by decide) (by decide) rfl

/-- C8: if the font resource cannot be opened (IOError from truetype), the
call returns no buffer and exactly the FontLoadError message; since every
other facility operation is arbitrary here, no measurement, allocation,
drawing or quantization influences the result. -/
theorem font_load_error_short_circuit (R : Rasterizer) (t path : String)
    (size : Nat) (tc bg : RGBA)
    (ht : R.truetype path size = .error .ioError) :
    text_to_true_pixel_art R t path size tc bg
      = .ok (none, [Msg.fontLoadError]) := by
  unfold text_to_true_pixel_art
  rw [ht]

/-- A facility whose font resource fails to open. -/
def Rnofont : Rasterizer where
  truetype := fun _ _ => .error .ioError
  textbbox := fun _ _ _ => .ok (0, 0, 2, 1)
  textlength := fun _ _ _ => .ok 2
  getmetrics := fun _ _ => .ok (1, 0)
  drawText := fun _ _ _ _ _ fill img =>
    .ok ⟨img.width, img.height, drawHead fill img.data⟩

/-- Witness for C8 at the failing-font facility. -/
theorem font_load_error_short_circuit_witness :
    text_to_true_pixel_art Rnofont sampleText samplePath 30 tcDefault
        bgDefault
      = .ok (none, [Msg.fontLoadError]) :=
  font_load_error_short_circuit Rnofont sampleText samplePath 30 tcDefault
    bgDefault rfl

/-- The concrete input of the filename claim. -/
def helloInput : String := "Hello, World!! 2024"

/-- The derived name the claim states for that input. -/
def helloOutput : String := "Hello__World___2024"

/-- C9: the filename derivation agrees with the rule as the spec words it
(replace every non-alphanumeric character with an underscore, keep only the
first 20 source characters, strip trailing underscores, fixed fallback when
empty), and on the input of the claim it yields exactly the stated name. -/
theorem safe_filename_rule :
    (∀ s : String, safe_filename s = safe_filename_spec s)
    ∧ safe_filename helloInput = helloOutput := by
  constructor
  · intro s
    unfold safe_filename safe_filename_spec
    rw [List.map_take]
  · rfl

/-- A facility whose draw leaves the buffer unchanged (useful because it
trivially preserves everywhere-positive alpha). -/
def Rident : Rasterizer where
  truetype := fun _ _ => .ok ()
  textbbox := fun _ _ _ => .ok (0, 0, 2, 1)
  textlength := fun _ _ _ => .ok 2
  getmetrics := fun _ _ => .ok (1, 0)
  drawText := fun _ _ _ _ _ _ img => .ok img

/-- Text color used in the positive-background-alpha witness. -/
def tcW : RGBA := ⟨1, 1, 1, 255⟩

/-- Background color with positive alpha used in that witness. -/
def bgW : RGBA := ⟨5, 5, 5, 9⟩

/-- C10: if bgColor has alpha above zero, then — since the background fill
already passes the alpha test and the facility's draw never zeroes the alpha
of an everywhere-positive-alpha base — every pixel of the returned
non-degenerate buffer is mapped to the textColor quadruple, so the bgColor
quadruple never appears in the output when the two colors differ. -/
theorem positive_bg_alpha_all_text_color (R : Rasterizer) (t path : String)
    (size : Nat) (tc bg : RGBA) (b0 b1 b2 b3 : Int) (msgs : List Msg)
    (img2 : Image)
    (ht : R.truetype path size = .ok ())
    (hm : measureBBox R path size t = .ok (msgs, some (b0, b1, b2, b3)))
    (hw : 0 < b2 - b0) (hh : 0 < b3 - b1)
    (hbga : 0 < bg.a)
    (hpres : ∀ ox oy f img img',
        R.drawText ox oy t path size f img = .ok img' →
        (∀ p ∈ img.data, 0 < p.a) → (∀ p ∈ img'.data, 0 < p.a))
    (hd : R.drawText (-b0) (-b1) t path size tc
        (baseImage (b2 - b0).toNat (b3 - b1).toNat bg) = .ok img2) :
    text_to_true_pixel_art R t path size tc bg
      = .ok (some ⟨img2.width, img2.height,
          img2.data.map (quantizePixel tc bg)⟩, msgs)
    ∧ (∀ q ∈ img2.data.map (quantizePixel tc bg), q = tc)
    ∧ (tc ≠ bg → bg ∉ img2.data.map (quantizePixel tc bg)) := by
  have hbase : ∀ p ∈ (baseImage (b2 - b0).toNat (b3 - b1).toNat bg).data,
      0 < p.a := by
    intro p hp
    have hpb : p = bg := List.eq_of_mem_replicate hp
    rw [hpb]
    exact hbga
  have hpos := hpres _ _ _ _ _ hd hbase
  have hall : ∀ q ∈ img2.data.map (quantizePixel tc bg), q = tc := by
    intro q hq
    obtain ⟨p, hp, hpq⟩ := List.mem_map.mp hq
    rw [← hpq]
    simp [quantizePixel, hpos p hp]
  refine ⟨render_nondegenerate R t path size tc bg b0 b1 b2 b3 msgs img2
      ht hm hw hh hd, hall, ?_⟩
  intro hne hmem
  exact hne (hall bg hmem).symm

/-- Witness for C10: with a positive-alpha background color the whole output
buffer is the text color. -/
theorem positive_bg_alpha_all_text_color_witness :
    text_to_true_pixel_art Rident sampleText samplePath 30 tcW bgW
      = .ok (some ⟨2, 1, [tcW, tcW]⟩, []) :=
  (positive_bg_alpha_all_text_color Rident sampleText samplePath 30 tcW bgW
    0 0 2 1 [] (baseImage 2 1 bgW)
    rfl rfl (by decide) (by decide) (by decide)
    (by intro ox oy f img img' hok hp
        have := Except.ok.inj hok
        rw [← this]
        exact hp) rfl).1

end PixelArt
